import Mathlib

/-!
Shallow embedding of the inbox-appeals ticket service core
(src/app/models, src/app/repositories, src/app/services, src/app/routers).
Database rows are Lean structures, tables are lists of rows, timestamps are
naturals counting seconds, and each repository/service operation is a pure
function from the old store to its result and the new store. Calls that can
fault at the Python level return Except: in particular the primary-key
parameter of BaseRepository.get_by_id / update_by_id is keyword-only and named
pk, so a call site passing it under the keyword id raises TypeError, which the
embedding models explicitly.
-/

namespace InboxAppeals

/-- Business lifecycle for a ticket (src/app/models/enums.py). -/
inductive TicketStatus where
  | NEW
  | IN_PROGRESS
  | RESOLVED
  | REJECTED
deriving DecidableEq, Repr

/-- Stored string of the status enum: CharEnumField persists these values, so
SQL comparisons and ORDER BY on the status column act on these strings. -/
def TicketStatus.value : TicketStatus → String
  | .NEW => "NEW"
  | .IN_PROGRESS => "IN_PROGRESS"
  | .RESOLVED => "RESOLVED"
  | .REJECTED => "REJECTED"

/-- Application roles (src/app/models/enums.py). -/
inductive UserRole where
  | USER
  | STAFF
  | ADMIN
deriving DecidableEq, Repr

/-- System user row (src/app/models/user.py). -/
structure User where
  id : Nat
  email : String
  password_hash : String
  role : UserRole
deriving DecidableEq, Repr

/-- Citizen profile row (src/app/models/citizen_profile.py); birth_date is a
day number. -/
structure CitizenProfile where
  id : Nat
  user_id : Nat
  inn : String
  phone : String
  first_name : String
  last_name : String
  middle_name : Option String
  birth_date : Nat
deriving DecidableEq, Repr

/-- Ticket row (src/app/models/ticket.py). Nullable columns are Options. -/
structure Ticket where
  id : Nat
  owner_id : Nat
  text : String
  status : TicketStatus
  staff_assignee_id : Option Nat
  staff_comment : Option String
  last_modified_by_id : Option Nat
  last_modified_at : Option Nat
  created_at : Nat
deriving DecidableEq, Repr

/-- The ticket table. -/
abbrev TicketStore := List Ticket

/-- The values dict handed to BaseRepository.update_by_id by the audit helpers
of TicketRepository; a field of the form some v means the dict holds that key
with value v (for the two nullable audit columns the inner Option is the
stored value, possibly NULL). -/
structure TicketUpdateValues where
  status : Option TicketStatus
  last_modified_by_id : Option (Option Nat)
  last_modified_at : Option (Option Nat)
  staff_comment : Option String
  staff_assignee_id : Option Nat
deriving DecidableEq, Repr

/-- Effect of the UPDATE's SET clause on one row. -/
def applyValues (v : TicketUpdateValues) (t : Ticket) : Ticket :=
  { t with
    status :=
      match v.status with
      | some s => s
      | none => t.status
    last_modified_by_id :=
      match v.last_modified_by_id with
      | some w => w
      | none => t.last_modified_by_id
    last_modified_at :=
      match v.last_modified_at with
      | some w => w
      | none => t.last_modified_at
    staff_comment :=
      match v.staff_comment with
      | some c => some c
      | none => t.staff_comment
    staff_assignee_id :=
      match v.staff_assignee_id with
      | some a => some a
      | none => t.staff_assignee_id }

/-- Keyword under which a call site passes the primary key to
BaseRepository.get_by_id / update_by_id. Both declare the parameter
keyword-only and named pk (src/app/repositories/base.py lines 97-104 and
263-269), so Python binds the argument only when the caller writes pk=...;
passing it as id=... raises TypeError before any SQL runs. -/
inductive PkKeyword where
  | pk
  | id
deriving DecidableEq, Repr

/-- Python runtime faults surfaced by the embedding. -/
inductive PyError where
  | typeError
deriving DecidableEq, Repr

/-- BaseRepository.update_by_id (base.py lines 263-269): called with the pk
keyword it UPDATEs the rows whose id equals the key, returning the affected
row count and the new table; called with the id keyword it raises TypeError. -/
def update_by_id (kw : PkKeyword) (pkval : Nat) (values : TicketUpdateValues)
    (store : TicketStore) : Except PyError (Nat × TicketStore) :=
  match kw with
  | .pk =>
    .ok ((store.filter (fun t => decide (t.id = pkval))).length,
      store.map (fun t => if t.id = pkval then applyValues values t else t))
  | .id => .error .typeError

/-- BaseRepository.get_by_id specialised to tickets (base.py lines 97-118):
called with the pk keyword it returns the first row matching the key; called
with the id keyword it raises TypeError. -/
def get_by_id (kw : PkKeyword) (pkval : Nat) (store : TicketStore) :
    Except PyError (Option Ticket) :=
  match kw with
  | .pk => .ok (store.find? (fun t => decide (t.id = pkval)))
  | .id => .error .typeError

/-- TicketRepository.update_status_with_audit
(src/app/repositories/tickets_repository.py lines 70-94): builds one values
dict setting status, last_modified_by_id (getattr of the optional staff user)
and last_modified_at together, plus staff_comment and staff_assignee_id when
given — but line 94 passes the key as id= to update_by_id, whose parameter is
keyword-only pk, so the call raises TypeError and the UPDATE never runs. -/
def update_status_with_audit (ticket_id : Nat) (new_status : TicketStatus)
    (staff_user : Option User) (staff_comment : Option String)
    (assign_to_staff : Option User) (now : Nat) (store : TicketStore) :
    Except PyError (Nat × TicketStore) :=
  update_by_id .id ticket_id
    { status := some new_status
      last_modified_by_id := some (staff_user.map (fun u => u.id))
      last_modified_at := some (some now)
      staff_comment := staff_comment
      staff_assignee_id := assign_to_staff.map (fun u => u.id) }
    store

/-- TicketRepository.assign_to_self_with_audit (lines 96-114): one values dict
setting assignee plus both audit fields, leaving status and comment alone —
but lines 106-107 pass the key as id= to update_by_id (keyword-only pk), so
the call raises TypeError and the UPDATE never runs. -/
def assign_to_self_with_audit (ticket_id : Nat) (staff_user : User) (now : Nat)
    (store : TicketStore) : Except PyError (Nat × TicketStore) :=
  update_by_id .id ticket_id
    { status := none
      last_modified_by_id := some (some staff_user.id)
      last_modified_at := some (some now)
      staff_comment := none
      staff_assignee_id := some staff_user.id }
    store

/-- Row order produced by ORDER BY status, created_at: the status column holds
the enum's string value, so the comparison is lexicographic on
(status string, created_at). -/
def queueLE (a b : Ticket) : Prop :=
  a.status.value < b.status.value ∨
    (a.status.value = b.status.value ∧ a.created_at ≤ b.created_at)

instance : DecidableRel queueLE := fun a b => by
  unfold queueLE; exact inferInstance

/-- WHERE clause of TicketRepository.list_for_staff_queue: a truthy statuses
list adds status__in, a present assignee adds staff_assignee_id equality. -/
def staffQueueFilter (statuses : Option (List TicketStatus))
    (assignee_id : Option Nat) (t : Ticket) : Bool :=
  (match statuses with
   | none => true
   | some ss => if ss.isEmpty then true else decide (t.status ∈ ss)) &&
  (match assignee_id with
   | none => true
   | some a => decide (t.staff_assignee_id = some a))

/-- TicketRepository.list_for_staff_queue (lines 45-68): filter then order by
(status, created_at) ascending. -/
def list_for_staff_queue (statuses : Option (List TicketStatus))
    (assignee_id : Option Nat) (store : TicketStore) : List Ticket :=
  List.insertionSort queueLE (store.filter (staffQueueFilter statuses assignee_id))

/-- TicketService.create_ticket (src/app/services/ticket_service.py lines
14-27): insert one row with status NEW; every other optional column keeps its
NULL column default. -/
def TicketService.create_ticket (owner_id : Nat) (text : String) (new_id : Nat)
    (now : Nat) (store : TicketStore) : Ticket × TicketStore :=
  let t : Ticket :=
    { id := new_id
      owner_id := owner_id
      text := text
      status := .NEW
      staff_assignee_id := none
      staff_comment := none
      last_modified_by_id := none
      last_modified_at := none
      created_at := now }
  (t, store ++ [t])

/-- TicketService.get_my_ticket (src/app/services/ticket_service.py lines
35-45): fetch the row then return None unless its owner matches the caller —
but line 39 passes the key as id= to get_by_id, whose parameter is
keyword-only pk, so the call raises TypeError before the ownership check. -/
def TicketService.get_my_ticket (owner_id : Nat) (ticket_id : Nat)
    (store : TicketStore) : Except PyError (Option Ticket) :=
  match get_by_id .id ticket_id store with
  | .error e => .error e
  | .ok none => .ok none
  | .ok (some t) => .ok (if t.owner_id = owner_id then some t else none)

/-- StaffService.list_queue (src/app/services/staff_service.py lines 16-29):
a falsy statuses argument defaults to [NEW, IN_PROGRESS]; only_my restricts to
the caller's own assignments. -/
def StaffService.list_queue (staff_user : User) (only_my : Bool)
    (statuses : Option (List TicketStatus)) (store : TicketStore) : List Ticket :=
  let effective : List TicketStatus :=
    match statuses with
    | none => [.NEW, .IN_PROGRESS]
    | some [] => [.NEW, .IN_PROGRESS]
    | some ss => ss
  list_for_staff_queue (some effective)
    (if only_my then some staff_user.id else none) store

/-- StaffService.update_ticket (lines 40-61): returns 0 before any repository
call when status, comment and assignment target are all absent; otherwise it
delegates to the audited UPDATE (whose repository call raises TypeError), with
the status defaulted to IN_PROGRESS. -/
def StaffService.update_ticket (ticket_id : Nat) (staff_user : Option User)
    (new_status : Option TicketStatus) (staff_comment : Option String)
    (assign_to_self : Option Bool) (now : Nat) (store : TicketStore) :
    Except PyError (Nat × TicketStore) :=
  let assign_target : Option User :=
    if assign_to_self.getD false then staff_user else none
  if new_status = none ∧ staff_comment = none ∧ assign_target = none then
    .ok (0, store)
  else
    update_status_with_audit ticket_id (new_status.getD .IN_PROGRESS)
      staff_user staff_comment assign_target now store

/-- Request body of the staff PATCH route (src/app/schemas/tickets.py,
StaffUpdateTicketBody): all three fields optional. -/
structure StaffUpdateTicketBody where
  status : Option TicketStatus
  staff_comment : Option String
  assign_to_self : Option Bool
deriving DecidableEq, Repr

/-- PATCH /staff/tickets/:id handler (src/app/routers/routes/tickets_staff.py
lines 62-88): substitutes IN_PROGRESS for a missing body status and coerces
assign_to_self to a plain bool before calling the service. -/
def route_update_ticket (ticket_id : Nat) (body : StaffUpdateTicketBody)
    (staff_user : User) (now : Nat) (store : TicketStore) :
    Except PyError (Nat × TicketStore) :=
  let new_status := body.status.getD .IN_PROGRESS
  StaffService.update_ticket ticket_id (some staff_user) (some new_status)
    body.staff_comment (some (body.assign_to_self.getD false)) now store

/-- Registration request body (src/app/schemas/auth.py, RegisterUserBody);
birth_date is a day number. -/
structure RegisterUserBody where
  email : String
  password : String
  inn : String
  phone : String
  first_name : String
  last_name : String
  middle_name : Option String
  birth_date : Nat
deriving DecidableEq, Repr

/-- Failure kinds of registration: the duplicate-email ValueError, or a store
fault while inserting inside the transaction. -/
inductive RegError where
  | duplicateEmail
  | storeFault
deriving DecidableEq, Repr

/-- The user and profile tables touched by AuthService. -/
structure AuthState where
  users : List User
  profiles : List CitizenProfile
deriving DecidableEq, Repr

/-- AuthService.register_user (src/app/services/auth_service.py lines 35-72).
hash stands for the external bcrypt primitive. profile_create_fails models a
store fault while inserting the profile row: the exception aborts the
surrounding transaction, which rolls back the user insert, so the state is
returned unchanged. Returns the resulting state and the outcome. -/
def register_user (hash : String → String) (payload : RegisterUserBody)
    (new_user_id new_profile_id : Nat) (profile_create_fails : Bool)
    (st : AuthState) : AuthState × Except RegError (Nat × UserRole) :=
  if st.users.any (fun u => decide (u.email = payload.email)) then
    (st, .error .duplicateEmail)
  else if profile_create_fails then
    (st, .error .storeFault)
  else
    let u : User :=
      { id := new_user_id
        email := payload.email
        password_hash := hash payload.password
        role := .USER }
    let p : CitizenProfile :=
      { id := new_profile_id
        user_id := u.id
        inn := payload.inn
        phone := payload.phone
        first_name := payload.first_name
        last_name := payload.last_name
        middle_name := payload.middle_name
        birth_date := payload.birth_date }
    ({ users := st.users ++ [u], profiles := st.profiles ++ [p] },
     .ok (u.id, .USER))

/-- Seconds in one calendar day; timedelta(days=1) on second-valued
timestamps. -/
def DAY : Nat := 86400

/-- created_at window of AnalyticsService.overview
(src/app/services/analytics_service.py lines 23-52): gte date_from, strict lt
date_to plus one day. -/
def overviewFilter (date_from date_to : Option Nat) (t : Ticket) : Bool :=
  (match date_from with
   | none => true
   | some d => decide (d ≤ t.created_at)) &&
  (match date_to with
   | none => true
   | some d => decide (t.created_at < d + DAY))

/-- GROUP BY status with Count: one dict entry per status present among the
filtered rows. -/
def statusGroups (filtered : List Ticket) : List (TicketStatus × Nat) :=
  ((filtered.map (fun t => t.status)).dedup).map
    (fun s => (s, (filtered.filter (fun t => decide (t.status = s))).length))

/-- dict.setdefault(status, 0): append the key with 0 when absent. -/
def setdefaultStatus (d : List (TicketStatus × Nat)) (s : TicketStatus) :
    List (TicketStatus × Nat) :=
  if d.any (fun p => decide (p.1 = s)) then d else d ++ [(s, 0)]

/-- Iteration order of for status in TicketStatus. -/
def allStatuses : List TicketStatus := [.NEW, .IN_PROGRESS, .RESOLVED, .REJECTED]

/-- AnalyticsService.overview: the total count over the window, and the
by-status dict with every missing status defaulted to 0. -/
def overview (date_from date_to : Option Nat) (store : TicketStore) :
    Nat × List (TicketStatus × Nat) :=
  let filtered := store.filter (overviewFilter date_from date_to)
  (filtered.length, allStatuses.foldl setdefaultStatus (statusGroups filtered))

/-- Dict lookup on the by-status mapping. -/
def lookupStatus (d : List (TicketStatus × Nat)) (s : TicketStatus) : Option Nat :=
  (d.find? (fun p => decide (p.1 = s))).map (fun p => p.2)

/-- One output record of AnalyticsService.staff_performance. -/
structure PerfRecord where
  staff_id : Option Nat
  resolved_count : Nat
  rejected_count : Nat
  in_progress_count : Nat
  last_modified_at_max : Option Nat
deriving DecidableEq, Repr

/-- The record a staff key starts from (setdefault default / zero-fill). -/
def zeroRecord (k : Option Nat) : PerfRecord :=
  { staff_id := k
    resolved_count := 0
    rejected_count := 0
    in_progress_count := 0
    last_modified_at_max := none }

/-- One aggregated row of the GROUP BY (last_modified_by_id, status) query. -/
structure PerfRow where
  staff : Option Nat
  status : TicketStatus
  cnt : Nat
  last_mod : Option Nat
deriving DecidableEq, Repr

/-- WHERE clause of staff_performance (lines 59-69): exact staff match when
staff_id is given, exclude-null otherwise, plus the last_modified_at window
(a SQL comparison against NULL never holds). -/
def perfFilter (date_from date_to : Option Nat) (staff_id : Option Nat)
    (t : Ticket) : Bool :=
  (match staff_id with
   | some s => decide (t.last_modified_by_id = some s)
   | none => decide (t.last_modified_by_id ≠ none)) &&
  (match date_from with
   | none => true
   | some d =>
     match t.last_modified_at with
     | none => false
     | some ts => decide (d ≤ ts)) &&
  (match date_to with
   | none => true
   | some d =>
     match t.last_modified_at with
     | none => false
     | some ts => decide (ts < d + DAY))

/-- MAX over a group's last_modified_at, ignoring NULLs. -/
def maxLastMod (l : List Ticket) : Option Nat :=
  (l.filterMap (fun t => t.last_modified_at)).foldl
    (fun acc x => some (match acc with | none => x | some m => max m x)) none

/-- GROUP BY (last_modified_by_id, status) with Count and Max aggregates. -/
def perfRows (filtered : List Ticket) : List PerfRow :=
  ((filtered.map (fun t => (t.last_modified_by_id, t.status))).dedup).map
    (fun k =>
      let grp := filtered.filter
        (fun t => decide (t.last_modified_by_id = k.1 ∧ t.status = k.2))
      { staff := k.1, status := k.2, cnt := grp.length, last_mod := maxLastMod grp })

/-- Counter and running-max updates the row loop applies to its staff record.
The source compares ISO-8601 strings; on a fixed-width zero-padded format that
is the chronological order, modelled as the order on Nat timestamps. -/
def bumpRecord (row : PerfRow) (r : PerfRecord) : PerfRecord :=
  let r1 :=
    match row.status with
    | .RESOLVED => { r with resolved_count := r.resolved_count + row.cnt }
    | .REJECTED => { r with rejected_count := r.rejected_count + row.cnt }
    | .IN_PROGRESS => { r with in_progress_count := r.in_progress_count + row.cnt }
    | .NEW => r
  match row.last_mod with
  | none => r1
  | some lm =>
    match r1.last_modified_at_max with
    | none => { r1 with last_modified_at_max := some lm }
    | some m => if m < lm then { r1 with last_modified_at_max := some lm } else r1

/-- One iteration of the row loop (lines 80-108): performance_map.setdefault,
then in-place update of the record that carries the row's staff key. -/
def perfStep (m : List PerfRecord) (row : PerfRow) : List PerfRecord :=
  let m1 :=
    if m.any (fun r => decide (r.staff_id = row.staff)) then m
    else m ++ [zeroRecord row.staff]
  m1.map (fun r => if r.staff_id = row.staff then bumpRecord row r else r)

/-- One iteration of the zero-fill loop over STAFF accounts (lines 109-118). -/
def perfFill (m : List PerfRecord) (u : User) : List PerfRecord :=
  if m.any (fun r => decide (r.staff_id = some u.id)) then m
  else m ++ [zeroRecord (some u.id)]

/-- AnalyticsService.staff_performance (lines 54-121): aggregate the filtered
rows per staff key, then append a zero record for every STAFF account missing
from the map; this zero-fill loop runs whether or not staff_id was given. -/
def staff_performance (date_from date_to : Option Nat) (staff_id : Option Nat)
    (tickets : TicketStore) (users : List User) : List PerfRecord :=
  let filtered := tickets.filter (perfFilter date_from date_to staff_id)
  let m := (perfRows filtered).foldl perfStep []
  (users.filter (fun u => decide (u.role = .STAFF))).foldl perfFill m

/-! Theorems. -/

/-- C2: update_ticket with new_status, staff_comment and assign_to_self all
absent (or assign_to_self false) returns an affected count of 0 before any
repository call and leaves the ticket table untouched, so every field of
every ticket is unchanged. -/
theorem C2_update_ticket_noop (store : TicketStore) (ticket_id now : Nat)
    (staff_user : Option User) :
    StaffService.update_ticket ticket_id staff_user none none none now store
      = .ok (0, store) ∧
    StaffService.update_ticket ticket_id staff_user none none (some false) now store
      = .ok (0, store) := by
  constructor <;> rfl

/-- C3: the claimed lookup never runs: get_my_ticket passes the primary key
under the id keyword to the keyword-only pk parameter of get_by_id
(ticket_service.py line 39 against base.py lines 97-100), so every call
raises TypeError before the ownership check instead of returning the ticket
or the not-found result the claim (and the repository's own user-ticket
tests) describe. -/
theorem C3_get_my_ticket_type_error (store : TicketStore)
    (owner_id ticket_id : Nat) :
    TicketService.get_my_ticket owner_id ticket_id store =
      .error .typeError := rfl

/-- C1: create_ticket leaves both audit fields null on the inserted row and
only appends, and no USER-driven operation touches the pair; but the two
staff-driven write helpers never reach their single audited UPDATE: each call
raises TypeError from passing the key as id= to the keyword-only pk of
update_by_id (tickets_repository.py lines 94 and 106-107 against base.py
lines 263-266), so the audit pair, which their values dicts would set
together, is never stamped at all — contrary to the claim and to the
repository's own staff-flow tests. -/
theorem C1_audit_write_type_error (store : TicketStore)
    (owner_id new_id now tid : Nat) (text : String) (ns : TicketStatus)
    (u : User) (sc : Option String) (asg : Option User) :
    ((TicketService.create_ticket owner_id text new_id now store).1.last_modified_by_id
        = none ∧
     (TicketService.create_ticket owner_id text new_id now store).1.last_modified_at
        = none ∧
     (TicketService.create_ticket owner_id text new_id now store).2 =
       store ++ [(TicketService.create_ticket owner_id text new_id now store).1]) ∧
    update_status_with_audit tid ns (some u) sc asg now store =
      .error .typeError ∧
    assign_to_self_with_audit tid u now store = .error .typeError :=
  ⟨⟨rfl, rfl, rfl⟩, rfl, rfl⟩

/-- C10: the staff PATCH route substitutes IN_PROGRESS for a missing body
status, so for every body the service's zero-affected no-op branch is
bypassed and the call reaches the audited UPDATE; but that UPDATE call raises
TypeError (id= against the keyword-only pk of update_by_id), so an empty-body
PATCH raises instead of overwriting the existing ticket to IN_PROGRESS and
stamping its audit pair as the claim (and the staff-flow tests) describe. -/
theorem C10_route_patch_type_error (store : TicketStore) (tid now : Nat)
    (u : User) :
    (∀ body : StaffUpdateTicketBody,
      route_update_ticket tid body u now store =
        update_status_with_audit tid (body.status.getD .IN_PROGRESS) (some u)
          body.staff_comment
          (if body.assign_to_self.getD false then some u else none) now store) ∧
    (∀ body : StaffUpdateTicketBody,
      route_update_ticket tid body u now store = .error .typeError) := by
  have hmain : ∀ body : StaffUpdateTicketBody,
      route_update_ticket tid body u now store =
        update_status_with_audit tid (body.status.getD .IN_PROGRESS) (some u)
          body.staff_comment
          (if body.assign_to_self.getD false then some u else none) now store := by
    intro body
    unfold route_update_ticket StaffService.update_ticket
    simp only [Option.getD_some]
    rw [if_neg]
    rintro ⟨h1, -, -⟩
    cases h1
  refine ⟨hmain, fun body => ?_⟩
  rw [hmain body]
  rfl

/-- C4: with a fresh email, register_user appends exactly one USER-role user
and exactly one profile referencing it in one transition; if the profile
insert faults, the transaction rolls back and the user row does not persist;
with a taken email it fails with the duplicate-email error and changes
nothing, whether or not the profile insert would fault. -/
theorem C4_register_atomic (hash : String → String) (payload : RegisterUserBody)
    (uid pid : Nat) (st : AuthState) :
    (st.users.any (fun u => decide (u.email = payload.email)) = false →
      ∃ u p,
        register_user hash payload uid pid false st =
          ({ users := st.users ++ [u], profiles := st.profiles ++ [p] },
           .ok (u.id, .USER)) ∧
        u.role = .USER ∧ u.email = payload.email ∧ u.id = uid ∧
        p.user_id = uid ∧ p.id = pid) ∧
    (st.users.any (fun u => decide (u.email = payload.email)) = true →
      ∀ fails : Bool,
        register_user hash payload uid pid fails st =
          (st, .error .duplicateEmail)) ∧
    (st.users.any (fun u => decide (u.email = payload.email)) = false →
      register_user hash payload uid pid true st = (st, .error .storeFault)) := by
  refine ⟨fun hfree => ?_, fun htaken fails => ?_, fun hfree => ?_⟩
  · refine ⟨{ id := uid, email := payload.email,
              password_hash := hash payload.password, role := .USER },
            { id := pid, user_id := uid, inn := payload.inn,
              phone := payload.phone, first_name := payload.first_name,
              last_name := payload.last_name, middle_name := payload.middle_name,
              birth_date := payload.birth_date },
            ?_, rfl, rfl, rfl, rfl, rfl⟩
    unfold register_user
    rw [hfree]
    rfl
  · unfold register_user
    rw [htaken]
    rfl
  · unfold register_user
    rw [hfree]
    rfl

/-- C4 witness: an empty store and a fresh email; registration adds one user
and one linked profile. -/
theorem C4_register_atomic_witness :
    ∃ u p,
      register_user (fun s => s) ⟨"a@b", "pw", "i", "p", "f", "l", none, 3⟩
          10 20 false ⟨[], []⟩ =
        ({ users := [] ++ [u], profiles := [] ++ [p] }, .ok (u.id, .USER)) ∧
      u.role = .USER ∧ u.email = "a@b" ∧ u.id = 10 ∧ p.user_id = 10 ∧ p.id = 20 :=
  (C4_register_atomic (fun s => s) ⟨"a@b", "pw", "i", "p", "f", "l", none, 3⟩
      10 20 ⟨[], []⟩).1 (by decide)

instance : IsTrans Ticket queueLE where
  trans a b c hab hbc := by
    unfold queueLE at *
    rcases hab with h1 | ⟨e1, l1⟩ <;> rcases hbc with h2 | ⟨e2, l2⟩
    · exact Or.inl (lt_trans h1 h2)
    · exact Or.inl (e2 ▸ h1)
    · exact Or.inl (e1 ▸ h2)
    · exact Or.inr ⟨e1.trans e2, le_trans l1 l2⟩

instance : IsTotal Ticket queueLE where
  total a b := by
    unfold queueLE
    rcases lt_trichotomy a.status.value b.status.value with h | h | h
    · exact Or.inl (Or.inl h)
    · rcases Nat.le_total a.created_at b.created_at with hc | hc
      · exact Or.inl (Or.inr ⟨h, hc⟩)
      · exact Or.inr (Or.inr ⟨h.symm, hc⟩)
    · exact Or.inr (Or.inl h)

/-- C8: with no statuses given, the staff queue holds exactly the tickets whose
status is NEW or IN_PROGRESS; every queue listing is sorted by
(status, created_at) ascending (status compared by its stored string); and
with an assignee filter every returned ticket carries that assignee. -/
theorem C8_staff_queue (store : TicketStore) (staff_user : User) :
    (∀ t : Ticket,
      t ∈ StaffService.list_queue staff_user false none store ↔
        (t ∈ store ∧ (t.status = .NEW ∨ t.status = .IN_PROGRESS))) ∧
    (∀ (statuses : Option (List TicketStatus)) (assignee_id : Option Nat),
      List.Sorted queueLE (list_for_staff_queue statuses assignee_id store)) ∧
    (∀ (statuses : Option (List TicketStatus)) (aid : Nat),
      ∀ t ∈ list_for_staff_queue statuses (some aid) store,
        t.staff_assignee_id = some aid) := by
  refine ⟨fun t => ?_, fun statuses assignee_id => ?_, fun statuses aid t ht => ?_⟩
  · unfold StaffService.list_queue list_for_staff_queue
    rw [List.mem_insertionSort, List.mem_filter]
    unfold staffQueueFilter
    simp only [List.isEmpty_cons, if_neg, Bool.and_true, decide_eq_true_eq,
      Bool.false_eq_true, ite_false]
    constructor
    · rintro ⟨hmem, hst⟩
      rcases List.mem_cons.mp hst with h | h
      · exact ⟨hmem, Or.inl h⟩
      · exact ⟨hmem, Or.inr (List.mem_singleton.mp h)⟩
    · rintro ⟨hmem, h | h⟩
      · exact ⟨hmem, h ▸ List.mem_cons_self _ _⟩
      · exact ⟨hmem, List.mem_cons.mpr (Or.inr (List.mem_singleton.mpr h))⟩
  · exact List.sorted_insertionSort queueLE _
  · unfold list_for_staff_queue at ht
    rw [List.mem_insertionSort, List.mem_filter] at ht
    have h2 := ht.2
    unfold staffQueueFilter at h2
    rw [Bool.and_eq_true] at h2
    simpa using h2.2

/-- C8 witness: queue over a four-ticket store returns the NEW and IN_PROGRESS
tickets only, and an assignee-filtered listing only returns that assignee's
ticket. -/
theorem C8_staff_queue_witness :
    ({ id := 3, owner_id := 1, text := "c", status := .NEW,
       staff_assignee_id := none, staff_comment := none,
       last_modified_by_id := none, last_modified_at := none, created_at := 2 }
      ∈ StaffService.list_queue
        { id := 9, email := "s@a", password_hash := "h", role := .STAFF }
        false none
        [{ id := 1, owner_id := 1, text := "a", status := .RESOLVED,
           staff_assignee_id := none, staff_comment := none,
           last_modified_by_id := none, last_modified_at := none, created_at := 5 },
         { id := 3, owner_id := 1, text := "c", status := .NEW,
           staff_assignee_id := none, staff_comment := none,
           last_modified_by_id := none, last_modified_at := none, created_at := 2 }])
    ∧ ({ id := 4, owner_id := 1, text := "d", status := .IN_PROGRESS,
         staff_assignee_id := some 9, staff_comment := none,
         last_modified_by_id := none, last_modified_at := none, created_at := 1 }
        : Ticket).staff_assignee_id = some 9 := by
  constructor
  · exact (C8_staff_queue
      [{ id := 1, owner_id := 1, text := "a", status := .RESOLVED,
         staff_assignee_id := none, staff_comment := none,
         last_modified_by_id := none, last_modified_at := none, created_at := 5 },
       { id := 3, owner_id := 1, text := "c", status := .NEW,
         staff_assignee_id := none, staff_comment := none,
         last_modified_by_id := none, last_modified_at := none, created_at := 2 }]
      { id := 9, email := "s@a", password_hash := "h", role := .STAFF }).1
      { id := 3, owner_id := 1, text := "c", status := .NEW,
        staff_assignee_id := none, staff_comment := none,
        last_modified_by_id := none, last_modified_at := none, created_at := 2 }
      |>.mpr (by decide)
  · exact (C8_staff_queue
      [{ id := 4, owner_id := 1, text := "d", status := .IN_PROGRESS,
         staff_assignee_id := some 9, staff_comment := none,
         last_modified_by_id := none, last_modified_at := none, created_at := 1 }]
      { id := 9, email := "s@a", password_hash := "h", role := .STAFF }).2.2
      (some [.IN_PROGRESS]) 9
      { id := 4, owner_id := 1, text := "d", status := .IN_PROGRESS,
        staff_assignee_id := some 9, staff_comment := none,
        last_modified_by_id := none, last_modified_at := none, created_at := 1 }
      (by decide)

theorem mem_allStatuses (s : TicketStatus) : s ∈ allStatuses := by
  cases s <;> decide

theorem find?_graph_of_mem {α β : Type} [DecidableEq α] (f : α → β) :
    ∀ (l : List α) (s : α), s ∈ l →
      (l.map (fun k => (k, f k))).find? (fun p => decide (p.1 = s)) = some (s, f s)
  | [], s, hs => absurd hs (List.not_mem_nil s)
  | k :: l, s, hs => by
    rw [List.map_cons, List.find?_cons]
    by_cases hk : k = s
    · subst hk
      simp
    · have hd : (decide ((k, f k).1 = s)) = false := by simpa using hk
      rw [hd]
      exact find?_graph_of_mem f l s
        ((List.mem_cons.mp hs).resolve_left (fun h => hk h.symm))

theorem find?_graph_of_not_mem {α β : Type} [DecidableEq α] (f : α → β) :
    ∀ (l : List α) (s : α), s ∉ l →
      (l.map (fun k => (k, f k))).find? (fun p => decide (p.1 = s)) = none
  | [], _, _ => rfl
  | k :: l, s, hs => by
    rw [List.map_cons, List.find?_cons]
    have hk : k ≠ s := fun h => hs (h ▸ List.mem_cons_self k l)
    have hd : (decide ((k, f k).1 = s)) = false := by simpa using hk
    rw [hd]
    exact find?_graph_of_not_mem f l s (fun h => hs (List.mem_cons_of_mem k h))

theorem lookupStatus_setdefault_ne (d : List (TicketStatus × Nat))
    (s s' : TicketStatus) (h : s' ≠ s) :
    lookupStatus (setdefaultStatus d s') s = lookupStatus d s := by
  unfold setdefaultStatus
  by_cases ha : d.any (fun p => decide (p.1 = s'))
  · rw [if_pos ha]
  · rw [if_neg ha]
    unfold lookupStatus
    rw [List.find?_append]
    have : ([(s', 0)].find? (fun p => decide (p.1 = s))) = none := by
      simp [List.find?_cons, h]
    rw [this, Option.or_none]

theorem lookupStatus_setdefault_self (d : List (TicketStatus × Nat))
    (s : TicketStatus) :
    lookupStatus (setdefaultStatus d s) s = some ((lookupStatus d s).getD 0) := by
  unfold setdefaultStatus
  by_cases ha : d.any (fun p => decide (p.1 = s)) = true
  · rw [if_pos ha]
    rcases List.any_eq_true.mp ha with ⟨p, hp, hps⟩
    unfold lookupStatus
    cases hf : d.find? (fun p => decide (p.1 = s)) with
    | none =>
      exact absurd hps ((List.find?_eq_none.mp hf p hp))
    | some q => rfl
  · rw [if_neg ha]
    have hf : d.find? (fun p => decide (p.1 = s)) = none := by
      rw [List.find?_eq_none]
      intro p hp hps
      exact ha (List.any_eq_true.mpr ⟨p, hp, hps⟩)
    unfold lookupStatus
    rw [List.find?_append, hf]
    simp [List.find?_cons]

theorem lookupStatus_foldl_preserve (ss : List TicketStatus)
    (d : List (TicketStatus × Nat)) (s : TicketStatus) (v : Nat)
    (h : lookupStatus d s = some v) :
    lookupStatus (ss.foldl setdefaultStatus d) s = some v := by
  induction ss generalizing d with
  | nil => exact h
  | cons s' ss ih =>
    rw [List.foldl_cons]
    apply ih
    by_cases he : s' = s
    · subst he
      rw [lookupStatus_setdefault_self, h]
      rfl
    · rw [lookupStatus_setdefault_ne d s s' he, h]

theorem lookupStatus_foldl_setdefault (ss : List TicketStatus)
    (d : List (TicketStatus × Nat)) (s : TicketStatus) (hs : s ∈ ss) :
    lookupStatus (ss.foldl setdefaultStatus d) s =
      some ((lookupStatus d s).getD 0) := by
  induction ss generalizing d with
  | nil => exact absurd hs (List.not_mem_nil s)
  | cons s' ss ih =>
    rw [List.foldl_cons]
    by_cases he : s' = s
    · subst he
      exact lookupStatus_foldl_preserve ss (setdefaultStatus d s') s' _
        (lookupStatus_setdefault_self d s')
    · have hmem : s ∈ ss :=
        (List.mem_cons.mp hs).resolve_left (fun h => he h.symm)
      rw [ih (setdefaultStatus d s') hmem, lookupStatus_setdefault_ne d s s' he]

theorem filtered_status_count (df dt : Option Nat) (store : TicketStore)
    (s : TicketStatus) :
    (store.filter (overviewFilter df dt)).filter (fun t => decide (t.status = s)) =
      store.filter (fun t => overviewFilter df dt t && decide (t.status = s)) := by
  rw [List.filter_filter]
  exact List.filter_congr (fun t _ => Bool.and_comm _ _)

theorem overview_lookupStatus (df dt : Option Nat) (store : TicketStore)
    (s : TicketStatus) :
    lookupStatus (overview df dt store).2 s =
      some ((store.filter
        (fun t => overviewFilter df dt t && decide (t.status = s))).length) := by
  show lookupStatus
    (allStatuses.foldl setdefaultStatus
      (statusGroups (store.filter (overviewFilter df dt)))) s = _
  rw [lookupStatus_foldl_setdefault allStatuses _ s (mem_allStatuses s)]
  rw [← filtered_status_count]
  set filtered := store.filter (overviewFilter df dt) with hf
  by_cases hs : s ∈ (filtered.map (fun t => t.status)).dedup
  · unfold statusGroups lookupStatus
    rw [find?_graph_of_mem _ _ s hs]
    rfl
  · unfold statusGroups lookupStatus
    rw [find?_graph_of_not_mem _ _ s hs]
    have : filtered.filter (fun t => decide (t.status = s)) = [] := by
      rw [List.filter_eq_nil_iff]
      intro t ht hts
      exact hs (List.mem_dedup.mpr
        (List.mem_map.mpr ⟨t, ht, by simpa using hts⟩))
    rw [this]
    rfl

theorem length_eq_sum_status_counts (l : List Ticket) :
    l.length = (l.filter (fun t => decide (t.status = .NEW))).length +
      (l.filter (fun t => decide (t.status = .IN_PROGRESS))).length +
      (l.filter (fun t => decide (t.status = .RESOLVED))).length +
      (l.filter (fun t => decide (t.status = .REJECTED))).length := by
  induction l with
  | nil => rfl
  | cons t l ih =>
    cases h : t.status <;>
      simp only [List.filter_cons, h, List.length_cons, ih, decide_eq_true_eq,
        reduceCtorEq, if_true, if_false, decide_True, decide_False, ite_true,
        ite_false] <;>
      omega

theorem day_le_iff (d ca : Nat) (h : d % DAY = 0) :
    d ≤ ca ↔ d / DAY ≤ ca / DAY := by
  have hdvd : DAY ∣ d := Nat.dvd_of_mod_eq_zero h
  have hDAY : 0 < DAY := by decide
  constructor
  · exact fun hle => Nat.div_le_div_right hle
  · intro hle
    have h2 := (Nat.le_div_iff_mul_le hDAY).mp hle
    rwa [Nat.div_mul_cancel hdvd] at h2

theorem day_lt_iff (d ca : Nat) (h : d % DAY = 0) :
    ca < d + DAY ↔ ca / DAY ≤ d / DAY := by
  have hdvd : DAY ∣ d := Nat.dvd_of_mod_eq_zero h
  have hDAY : 0 < DAY := by decide
  have h1 : d + DAY = (d / DAY + 1) * DAY := by
    rw [Nat.add_mul, one_mul, Nat.div_mul_cancel hdvd]
  rw [h1, ← Nat.div_lt_iff_lt_mul hDAY, Nat.lt_succ_iff]

/-- C6: over a calendar-day window (both bounds aligned to a day start, as the
date query parameters are), total_created counts exactly the tickets whose
creation day lies between the two days inclusive — the upper bound becomes the
start of the next day compared strictly — and the by-status mapping contains
every one of the four statuses, carrying the matching count (hence 0 when the
window holds no ticket of that status). -/
theorem C6_overview_inclusive_days (store : TicketStore) (df dt : Option Nat)
    (hdf : ∀ d, df = some d → d % DAY = 0)
    (hdt : ∀ d, dt = some d → d % DAY = 0) :
    (overview df dt store).1 =
      (store.filter (fun t =>
        (match df with
         | none => true
         | some d => decide (d / DAY ≤ t.created_at / DAY)) &&
        (match dt with
         | none => true
         | some d => decide (t.created_at / DAY ≤ d / DAY)))).length ∧
    (∀ s : TicketStatus,
      lookupStatus (overview df dt store).2 s =
        some ((store.filter
          (fun t => overviewFilter df dt t && decide (t.status = s))).length)) := by
  constructor
  · show (store.filter (overviewFilter df dt)).length = _
    congr 1
    apply List.filter_congr
    intro t _
    unfold overviewFilter
    cases df with
    | none =>
      cases dt with
      | none => rfl
      | some d =>
        have h2 : decide (t.created_at < d + DAY)
            = decide (t.created_at / DAY ≤ d / DAY) :=
          decide_eq_decide.mpr (day_lt_iff d t.created_at (hdt d rfl))
        simpa using h2
    | some c =>
      cases dt with
      | none =>
        have h1 : decide (c ≤ t.created_at)
            = decide (c / DAY ≤ t.created_at / DAY) :=
          decide_eq_decide.mpr (day_le_iff c t.created_at (hdf c rfl))
        simpa using h1
      | some d =>
        have h1 : decide (c ≤ t.created_at)
            = decide (c / DAY ≤ t.created_at / DAY) :=
          decide_eq_decide.mpr (day_le_iff c t.created_at (hdf c rfl))
        have h2 : decide (t.created_at < d + DAY)
            = decide (t.created_at / DAY ≤ d / DAY) :=
          decide_eq_decide.mpr (day_lt_iff d t.created_at (hdt d rfl))
        simp only [h1, h2]
  · exact overview_lookupStatus df dt store

/-- C6 witness: a two-ticket store with the window being day 0 only; the
in-window NEW ticket is counted, the day-2 ticket is not, and the RESOLVED key
is present with count 0. -/
theorem C6_overview_inclusive_days_witness :
    (overview (some 0) (some 0)
      [{ id := 1, owner_id := 1, text := "a", status := .NEW,
         staff_assignee_id := none, staff_comment := none,
         last_modified_by_id := none, last_modified_at := none, created_at := 50 },
       { id := 2, owner_id := 1, text := "b", status := .NEW,
         staff_assignee_id := none, staff_comment := none,
         last_modified_by_id := none, last_modified_at := none,
         created_at := 200000 }]).1 = 1 ∧
    lookupStatus (overview (some 0) (some 0)
      [{ id := 1, owner_id := 1, text := "a", status := .NEW,
         staff_assignee_id := none, staff_comment := none,
         last_modified_by_id := none, last_modified_at := none, created_at := 50 },
       { id := 2, owner_id := 1, text := "b", status := .NEW,
         staff_assignee_id := none, staff_comment := none,
         last_modified_by_id := none, last_modified_at := none,
         created_at := 200000 }]).2 .RESOLVED = some 0 := by
  have h := C6_overview_inclusive_days
    [{ id := 1, owner_id := 1, text := "a", status := .NEW,
       staff_assignee_id := none, staff_comment := none,
       last_modified_by_id := none, last_modified_at := none, created_at := 50 },
     { id := 2, owner_id := 1, text := "b", status := .NEW,
       staff_assignee_id := none, staff_comment := none,
       last_modified_by_id := none, last_modified_at := none,
       created_at := 200000 }]
    (some 0) (some 0)
    (by intro d hd; cases hd; rfl)
    (by intro d hd; cases hd; rfl)
  exact ⟨h.1.trans (by decide), (h.2 .RESOLVED).trans (by decide)⟩

/-- C9: the total_created value of overview equals the sum of the four
per-status values of its counts_by_status mapping, both being computed over
the same created_at filter. -/
theorem C9_total_eq_sum_counts (df dt : Option Nat) (store : TicketStore) :
    (overview df dt store).1 =
      (lookupStatus (overview df dt store).2 .NEW).getD 0 +
      (lookupStatus (overview df dt store).2 .IN_PROGRESS).getD 0 +
      (lookupStatus (overview df dt store).2 .RESOLVED).getD 0 +
      (lookupStatus (overview df dt store).2 .REJECTED).getD 0 := by
  rw [overview_lookupStatus, overview_lookupStatus, overview_lookupStatus,
    overview_lookupStatus]
  show (store.filter (overviewFilter df dt)).length = _
  rw [← filtered_status_count, ← filtered_status_count, ← filtered_status_count,
    ← filtered_status_count]
  simp only [Option.getD_some]
  exact length_eq_sum_status_counts _

theorem bumpRecord_staff_id (row : PerfRow) (r : PerfRecord) :
    (bumpRecord row r).staff_id = r.staff_id := by
  rcases row with ⟨rk, rstat, rc, rlm⟩
  rcases r with ⟨k, a, b, c, mx⟩
  cases rstat <;> cases rlm <;> cases mx <;>
    simp only [bumpRecord] <;> (first | rfl | (split <;> rfl))

theorem perfStep_mem_staff_id (m : List PerfRecord) (row : PerfRow)
    (r2 : PerfRecord) (h : r2 ∈ perfStep m row) :
    (∃ r1 ∈ m, r2.staff_id = r1.staff_id) ∨ r2.staff_id = row.staff := by
  simp only [perfStep] at h
  rcases List.mem_map.mp h with ⟨r1, hr1, heq⟩
  have hsid : r2.staff_id = r1.staff_id := by
    subst heq
    by_cases hk : r1.staff_id = row.staff
    · rw [if_pos hk]
      exact bumpRecord_staff_id row r1
    · rw [if_neg hk]
  by_cases hc : m.any (fun r => decide (r.staff_id = row.staff)) = true
  · rw [if_pos hc] at hr1
    exact Or.inl ⟨r1, hr1, hsid⟩
  · rw [if_neg hc] at hr1
    rcases List.mem_append.mp hr1 with h1 | h1
    · exact Or.inl ⟨r1, h1, hsid⟩
    · right
      rw [hsid, List.mem_singleton.mp h1]
      rfl

theorem foldl_perfStep_staff_id (rows : List PerfRow) (m : List PerfRecord)
    (r2 : PerfRecord) (h : r2 ∈ rows.foldl perfStep m) :
    (∃ r1 ∈ m, r2.staff_id = r1.staff_id) ∨
      ∃ row ∈ rows, r2.staff_id = row.staff := by
  induction rows generalizing m with
  | nil => exact Or.inl ⟨r2, h, rfl⟩
  | cons row rows ih =>
    rcases ih (perfStep m row) h with h1 | h1
    · rcases h1 with ⟨r1, hr1, he⟩
      rcases perfStep_mem_staff_id m row r1 hr1 with h2 | h2
      · rcases h2 with ⟨r0, hr0, he0⟩
        exact Or.inl ⟨r0, hr0, he.trans he0⟩
      · exact Or.inr ⟨row, List.mem_cons_self _ _, he.trans h2⟩
    · rcases h1 with ⟨row2, hrow, he⟩
      exact Or.inr ⟨row2, List.mem_cons_of_mem _ hrow, he⟩

theorem perfRows_staff_mem (filtered : List Ticket) (row : PerfRow)
    (h : row ∈ perfRows filtered) :
    ∃ t ∈ filtered, row.staff = t.last_modified_by_id := by
  unfold perfRows at h
  rcases List.mem_map.mp h with ⟨k, hk, heq⟩
  have hk2 : k ∈ filtered.map (fun t => (t.last_modified_by_id, t.status)) :=
    List.mem_dedup.mp hk
  rcases List.mem_map.mp hk2 with ⟨t, ht, hkt⟩
  refine ⟨t, ht, ?_⟩
  cases heq
  cases hkt
  rfl

theorem perfFill_mem_preserve (m : List PerfRecord) (u : User) (r : PerfRecord)
    (h : r ∈ m) : r ∈ perfFill m u := by
  unfold perfFill
  split
  · exact h
  · exact List.mem_append_left _ h

theorem foldl_perfFill_mem_preserve (l : List User) (m : List PerfRecord)
    (r : PerfRecord) (h : r ∈ m) : r ∈ l.foldl perfFill m := by
  induction l generalizing m with
  | nil => exact h
  | cons u l ih => exact ih _ (perfFill_mem_preserve m u r h)

theorem perfFill_anyKey_preserve (m : List PerfRecord) (u : User)
    (k : Option Nat)
    (h : m.any (fun r => decide (r.staff_id = k)) = true) :
    (perfFill m u).any (fun r => decide (r.staff_id = k)) = true := by
  unfold perfFill
  split
  · exact h
  · rw [List.any_append, h]
    rfl

theorem foldl_perfFill_anyKey_preserve (l : List User) (m : List PerfRecord)
    (k : Option Nat)
    (h : m.any (fun r => decide (r.staff_id = k)) = true) :
    (l.foldl perfFill m).any (fun r => decide (r.staff_id = k)) = true := by
  induction l generalizing m with
  | nil => exact h
  | cons u l ih => exact ih _ (perfFill_anyKey_preserve m u k h)

theorem foldl_perfFill_anyKey (l : List User) (m : List PerfRecord) (u : User)
    (hu : u ∈ l) :
    (l.foldl perfFill m).any (fun r => decide (r.staff_id = some u.id)) = true := by
  induction l generalizing m with
  | nil => exact absurd hu (List.not_mem_nil u)
  | cons v l ih =>
    rw [List.foldl_cons]
    rcases List.mem_cons.mp hu with rfl | hmem
    · apply foldl_perfFill_anyKey_preserve
      unfold perfFill
      split
      · assumption
      · rw [List.any_append]
        simp [zeroRecord]
    · exact ih (perfFill m v) hmem

theorem anyKey_to_mem (m : List PerfRecord) (k : Option Nat)
    (h : m.any (fun r => decide (r.staff_id = k)) = true) :
    ∃ r ∈ m, r.staff_id = k := by
  rcases List.any_eq_true.mp h with ⟨r, hr, hk⟩
  exact ⟨r, hr, of_decide_eq_true hk⟩

theorem foldl_perfFill_zero (l : List User) (m : List PerfRecord) (u : User)
    (hu : u ∈ l)
    (habs : m.any (fun r => decide (r.staff_id = some u.id)) = false) :
    zeroRecord (some u.id) ∈ l.foldl perfFill m := by
  induction l generalizing m with
  | nil => exact absurd hu (List.not_mem_nil u)
  | cons v l ih =>
    rw [List.foldl_cons]
    by_cases hv : v.id = u.id
    · have hz : zeroRecord (some u.id) ∈ perfFill m v := by
        unfold perfFill
        have hc : (m.any fun r => decide (r.staff_id = some v.id)) = false := by
          rw [hv]
          exact habs
        rw [hc]
        simp [hv]
      exact foldl_perfFill_mem_preserve l _ _ hz
    · rcases List.mem_cons.mp hu with rfl | hmem
      · exact absurd rfl hv
      · apply ih (perfFill m v) hmem
        unfold perfFill
        split
        · exact habs
        · rw [List.any_append, habs]
          simp [zeroRecord, hv]

theorem foldl_perfFill_mem_cases (l : List User) (m : List PerfRecord)
    (r : PerfRecord) (h : r ∈ l.foldl perfFill m) :
    r ∈ m ∨ ∃ u ∈ l, r = zeroRecord (some u.id) := by
  induction l generalizing m with
  | nil => exact Or.inl h
  | cons v l ih =>
    rcases ih (perfFill m v) h with h1 | h1
    · unfold perfFill at h1
      split at h1
      · exact Or.inl h1
      · rcases List.mem_append.mp h1 with h2 | h2
        · exact Or.inl h2
        · exact Or.inr ⟨v, List.mem_cons_self _ _, List.mem_singleton.mp h2⟩
    · rcases h1 with ⟨u, hu, he⟩
      exact Or.inr ⟨u, List.mem_cons_of_mem _ hu, he⟩

/-- C7: with no staff_id filter, every STAFF-role account yields at least one
record in staff_performance; an account with no modified ticket in the window
yields the all-zero record with a null last-modified maximum. -/
theorem C7_staff_performance_covers_all_staff (df dt : Option Nat)
    (tickets : TicketStore) (users : List User) :
    ∀ u ∈ users, u.role = .STAFF →
      (∃ r ∈ staff_performance df dt none tickets users,
        r.staff_id = some u.id) ∧
      ((∀ t ∈ tickets.filter (perfFilter df dt none),
          t.last_modified_by_id ≠ some u.id) →
        zeroRecord (some u.id) ∈ staff_performance df dt none tickets users) := by
  intro u hu hrole
  have hustaff : u ∈ users.filter (fun v => decide (v.role = .STAFF)) :=
    List.mem_filter.mpr ⟨hu, by simp [hrole]⟩
  constructor
  · apply anyKey_to_mem
    exact foldl_perfFill_anyKey _ _ u hustaff
  · intro hnomod
    have habs : ((perfRows (tickets.filter (perfFilter df dt none))).foldl
        perfStep []).any (fun r => decide (r.staff_id = some u.id)) = false := by
      by_contra hc
      rw [Bool.not_eq_false] at hc
      rcases anyKey_to_mem _ _ hc with ⟨r, hr, hk⟩
      rcases foldl_perfStep_staff_id _ _ r hr with h1 | h1
      · rcases h1 with ⟨r1, hr1, -⟩
        exact absurd hr1 (List.not_mem_nil r1)
      · rcases h1 with ⟨row, hrow, he⟩
        rcases perfRows_staff_mem _ row hrow with ⟨t, ht, hts⟩
        exact hnomod t ht (by rw [← hts, ← he, hk])
    exact foldl_perfFill_zero _ _ u hustaff habs

/-- C7 witness: two STAFF users, one of whom modified a ticket; the other
still appears, as the zero record. -/
theorem C7_staff_performance_covers_all_staff_witness :
    (∃ r ∈ staff_performance none none none
      [{ id := 7, owner_id := 1, text := "a", status := .RESOLVED,
         staff_assignee_id := some 9, staff_comment := none,
         last_modified_by_id := some 9, last_modified_at := some 100,
         created_at := 5 }]
      [{ id := 9, email := "s@a", password_hash := "h", role := .STAFF },
       { id := 2, email := "t@a", password_hash := "h", role := .STAFF }],
      r.staff_id = some 2) ∧
    zeroRecord (some 2) ∈ staff_performance none none none
      [{ id := 7, owner_id := 1, text := "a", status := .RESOLVED,
         staff_assignee_id := some 9, staff_comment := none,
         last_modified_by_id := some 9, last_modified_at := some 100,
         created_at := 5 }]
      [{ id := 9, email := "s@a", password_hash := "h", role := .STAFF },
       { id := 2, email := "t@a", password_hash := "h", role := .STAFF }] := by
  have h := C7_staff_performance_covers_all_staff none none
    [{ id := 7, owner_id := 1, text := "a", status := .RESOLVED,
       staff_assignee_id := some 9, staff_comment := none,
       last_modified_by_id := some 9, last_modified_at := some 100,
       created_at := 5 }]
    [{ id := 9, email := "s@a", password_hash := "h", role := .STAFF },
     { id := 2, email := "t@a", password_hash := "h", role := .STAFF }]
    { id := 2, email := "t@a", password_hash := "h", role := .STAFF }
    (by decide) (by decide)
  exact ⟨h.1, h.2 (by decide)⟩

/-- C5 counterexample: with staff_id = 1 given and a second STAFF account 2
present, the result still contains a record whose staff_id is 2, so the
output is not restricted to the one requested staff member. -/
theorem C5_counterexample_other_staff_included :
    ∃ r ∈ staff_performance none none (some 1) []
      [{ id := 1, email := "x@a", password_hash := "h", role := .STAFF },
       { id := 2, email := "y@a", password_hash := "h", role := .STAFF }],
      r.staff_id = some 2 := by
  decide

theorem perfFilter_staff_exact (df dt : Option Nat) (sid : Nat)
    (tickets : TicketStore) :
    ∀ t ∈ tickets.filter (perfFilter df dt (some sid)),
      t.last_modified_by_id = some sid := by
  intro t ht
  have h3 := (List.mem_filter.mp ht).2
  unfold perfFilter at h3
  rw [Bool.and_eq_true, Bool.and_eq_true] at h3
  exact of_decide_eq_true h3.1.1

/-- C5 amended: when staff_id is given, the aggregation itself is restricted
by exact match on last_modified_by = staff_id (no implicit exclude-null
filter), so any record with non-zero counters or a non-null last-modified
maximum belongs to that staff member; however the unconditional zero-fill
still appends an all-zero record for every other STAFF-role account, so every
STAFF account with a different id appears in the result as the all-zero
record. -/
theorem C5_amended_exact_match_plus_zero_fill (df dt : Option Nat) (sid : Nat)
    (tickets : TicketStore) (users : List User) :
    (∀ r ∈ staff_performance df dt (some sid) tickets users,
      r.staff_id = some sid ∨
      (r.resolved_count = 0 ∧ r.rejected_count = 0 ∧ r.in_progress_count = 0 ∧
        r.last_modified_at_max = none ∧
        ∃ u ∈ users, u.role = .STAFF ∧ r.staff_id = some u.id)) ∧
    (∀ u ∈ users, u.role = .STAFF → u.id ≠ sid →
      zeroRecord (some u.id) ∈ staff_performance df dt (some sid) tickets users) := by
  constructor
  · intro r hr
    have hr2 : r ∈ (users.filter (fun v => decide (v.role = .STAFF))).foldl perfFill
        ((perfRows (tickets.filter (perfFilter df dt (some sid)))).foldl
          perfStep []) := hr
    rcases foldl_perfFill_mem_cases _ _ r hr2 with h1 | h1
    · left
      rcases foldl_perfStep_staff_id _ _ r h1 with h2 | h2
      · rcases h2 with ⟨r1, hr1, -⟩
        exact absurd hr1 (List.not_mem_nil r1)
      · rcases h2 with ⟨row, hrow, he⟩
        rcases perfRows_staff_mem _ row hrow with ⟨t, ht, hts⟩
        have hl := perfFilter_staff_exact df dt sid tickets t ht
        rw [he, hts, hl]
    · right
      rcases h1 with ⟨u, hu, he⟩
      have hu2 := List.mem_filter.mp hu
      subst he
      exact ⟨rfl, rfl, rfl, rfl, u, hu2.1, of_decide_eq_true hu2.2, rfl⟩
  · intro u hu hrole hne
    have hustaff : u ∈ users.filter (fun v => decide (v.role = .STAFF)) :=
      List.mem_filter.mpr ⟨hu, by simp [hrole]⟩
    have habs : ((perfRows (tickets.filter (perfFilter df dt (some sid)))).foldl
        perfStep []).any (fun r => decide (r.staff_id = some u.id)) = false := by
      by_contra hc
      rw [Bool.not_eq_false] at hc
      rcases anyKey_to_mem _ _ hc with ⟨r, hr, hk⟩
      rcases foldl_perfStep_staff_id _ _ r hr with h1 | h1
      · rcases h1 with ⟨r1, hr1, -⟩
        exact absurd hr1 (List.not_mem_nil r1)
      · rcases h1 with ⟨row, hrow, he⟩
        rcases perfRows_staff_mem _ row hrow with ⟨t, ht, hts⟩
        have hl := perfFilter_staff_exact df dt sid tickets t ht
        have hus : some u.id = some sid := by
          rw [← hk, he, hts, hl]
        exact hne (Option.some_inj.mp hus)
    exact foldl_perfFill_zero _ _ u hustaff habs

/-- C5 amended witness: staff 1 modified a ticket; the other staff account 2
receives the all-zero record, which is in the result and falls into the
all-zero branch of the classification. -/
theorem C5_amended_exact_match_plus_zero_fill_witness :
    ((zeroRecord (some 2)).staff_id = some 1 ∨
      ((zeroRecord (some 2)).resolved_count = 0 ∧
        (zeroRecord (some 2)).rejected_count = 0 ∧
        (zeroRecord (some 2)).in_progress_count = 0 ∧
        (zeroRecord (some 2)).last_modified_at_max = none ∧
        ∃ u ∈ [({ id := 2, email := "y@a", password_hash := "h",
                  role := UserRole.STAFF } : User)],
          u.role = .STAFF ∧ (zeroRecord (some 2)).staff_id = some u.id)) ∧
    zeroRecord (some 2) ∈ staff_performance none none (some 1)
      [{ id := 7, owner_id := 1, text := "a", status := .RESOLVED,
         staff_assignee_id := some 1, staff_comment := none,
         last_modified_by_id := some 1, last_modified_at := some 100,
         created_at := 5 }]
      [{ id := 2, email := "y@a", password_hash := "h", role := .STAFF }] :=
  ⟨(C5_amended_exact_match_plus_zero_fill none none 1
      [{ id := 7, owner_id := 1, text := "a", status := .RESOLVED,
         staff_assignee_id := some 1, staff_comment := none,
         last_modified_by_id := some 1, last_modified_at := some 100,
         created_at := 5 }]
      [{ id := 2, email := "y@a", password_hash := "h", role := .STAFF }]).1
    (zeroRecord (some 2)) (by decide),
   (C5_amended_exact_match_plus_zero_fill none none 1
      [{ id := 7, owner_id := 1, text := "a", status := .RESOLVED,
         staff_assignee_id := some 1, staff_comment := none,
         last_modified_by_id := some 1, last_modified_at := some 100,
         created_at := 5 }]
      [{ id := 2, email := "y@a", password_hash := "h", role := .STAFF }]).2
    { id := 2, email := "y@a", password_hash := "h", role := .STAFF }
    (by decide) (by decide) (by decide)⟩

end InboxAppeals
